import Mathlib

/-!
Verification of the shadow Solidity parser/analyzer wrapper
(`src/libs/shadow/src/solidity-parser-wrapper.cpp`).

The wrapper drives a 13-step semantic-analysis pipeline (`analyzeSourceUnit`)
over an AST imported from JSON, with a three-tier stage-failure policy:
abort-on-failure stages (`return false`), accumulate-on-failure stages
(`noErrors = false`), and gated stages (`if (noErrors) { ... }`).  The
individual checker passes (SyntaxChecker, NameAndTypeResolver, TypeChecker,
FunctionCallGraphBuilder, ...) live in the external solidity libraries; the
wrapper only consumes their boolean result, the diagnostics they append to
the shared `ErrorList`, and the exceptions they may raise.  We therefore
embed an AST as the record of behaviours the wrapper observes from those
external calls (a boolean result, a list of appended diagnostics, an
optional exception per stage) and embed the wrapper's control flow over
those behaviours literally, instrumented with an execution trace recording
which stages ran.
-/

namespace SolShadow

/-- A diagnostic record as stored in the context's `ErrorList`: the error
kind (the string produced by `Error::formatErrorType(error->type())`) and
the message (`error->what()`). -/
structure Diag where
  kind : String
  message : String
deriving DecidableEq, Repr

/-- Exceptions observable by the wrapper's catch clauses.  Every exception
type thrown by the wrapped libraries (libsolidity, liblangutil, nlohmann
json, the C++ standard library) derives from `std::exception`; the wrapper
additionally distinguishes `FatalError` with its own catch clause in
`sol_parser_parse` and `analyzeSourceUnit`. -/
inductive Exn where
  | fatalError
  | stdException
deriving DecidableEq, Repr

/-- The behaviour of one external checker call as observed by the wrapper:
the diagnostics it appends to the `ErrorList` via the `ErrorReporter`, then
either an exception it raises or the boolean it returns. -/
structure StageResult where
  throws : Option Exn := none
  ok : Bool := true
  diags : List Diag := []
deriving DecidableEq, Repr

/-- The behaviour of the two `FunctionCallGraphBuilder` calls for one
`ContractDefinition` in the call-graph loop (each call either returns a
graph or raises). -/
structure ContractCG where
  creationThrows : Option Exn := none
  deployedThrows : Option Exn := none
deriving DecidableEq, Repr

/-- A source-unit AST, abstracted to the behaviour each pipeline stage of
`analyzeSourceUnit` exhibits on it.  Field order follows the call order in
the C++ function.  `homonymWarnings` is the list of warnings
`resolver.warnHomonymDeclarations()` appends (it returns `void` and cannot
fail); `contracts` lists the contract definitions visited by the
call-graph loop. -/
structure Ast where
  syntaxCheck : StageResult := {}
  registerDeclarations : StageResult := {}
  performImports : StageResult := {}
  homonymWarnings : List Diag := []
  parseDocStrings : StageResult := {}
  resolveNamesAndTypes : StageResult := {}
  declarationTypeCheck : StageResult := {}
  validateDocStrings : StageResult := {}
  contractLevelCheck : StageResult := {}
  typeCheck : StageResult := {}
  docStringAnalysis : StageResult := {}
  postTypeCheck : StageResult := {}
  postTypeFinalize : StageResult := {}
  contracts : List ContractCG := []
  postTypeContractCheck : StageResult := {}
deriving DecidableEq, Repr

/-- Tags for the pipeline stages of `analyzeSourceUnit`, in source order,
used to record which stages executed. -/
inductive Stage where
  | scoper
  | syntaxCheck
  | registerDeclarations
  | performImports
  | warnHomonyms
  | parseDocStrings
  | resolveNamesAndTypes
  | declarationTypeCheck
  | validateDocStrings
  | contractLevelCheck
  | typeCheck
  | docStringAnalysis
  | postTypeCheck
  | postTypeFinalize
  | callGraph
  | postTypeContractCheck
deriving DecidableEq, Repr

/-- The mutable state threaded through `analyzeSourceUnit`: the `ErrorList`
(passed in by reference from the context), the local `noErrors` flag, plus
two instrumentation fields — the list of stages executed so far and the
number of `CallGraph` objects constructed so far. -/
structure RunState where
  errors : List Diag
  trace : List Stage
  noErrors : Bool
  graphsBuilt : Nat
deriving DecidableEq, Repr

/-- Outcome of the `try` block of `analyzeSourceUnit`: either an exception
reached the catch clauses, or a `return` statement produced a boolean.  In
both cases the `ErrorList` state is retained (it is the caller's list,
mutated in place). -/
inductive TryOutcome where
  | thrown (e : Exn) (st : RunState)
  | returned (b : Bool) (st : RunState)
deriving DecidableEq, Repr

/-- One accumulate-on-failure stage call:
`if (!checker.check(_ast)) noErrors = false;`.
The checker appends its diagnostics, then either raises or returns; on
return the pipeline continues with `k` regardless of the boolean. -/
def accumStage (tag : Stage) (r : StageResult) (st : RunState)
    (k : RunState → TryOutcome) : TryOutcome :=
  let st1 : RunState :=
    { st with trace := st.trace ++ [tag], errors := st.errors ++ r.diags }
  match r.throws with
  | some e => .thrown e st1
  | none => k { st1 with noErrors := st1.noErrors && r.ok }

/-- One abort-on-failure stage call:
`if (!checker.check(_ast)) return false;`.
The checker appends its diagnostics, then either raises, returns `false`
(aborting the whole pipeline), or returns `true` (continuing with `k`). -/
def abortStage (tag : Stage) (r : StageResult) (st : RunState)
    (k : RunState → TryOutcome) : TryOutcome :=
  let st1 : RunState :=
    { st with trace := st.trace ++ [tag], errors := st.errors ++ r.diags }
  match r.throws with
  | some e => .thrown e st1
  | none => if r.ok then k st1 else .returned false st1

/-- The call-graph loop body: for each contract, build the creation graph,
then the deployed graph; each `CallGraph` constructed increments
`graphsBuilt`, and a raising builder aborts the loop with the exception. -/
def buildGraphLoop : List ContractCG → RunState → Except (Exn × RunState) RunState
  | [], st => .ok st
  | c :: cs, st =>
    match c.creationThrows with
    | some e => .error (e, st)
    | none =>
      match c.deployedThrows with
      | some e => .error (e, { st with graphsBuilt := st.graphsBuilt + 1 })
      | none => buildGraphLoop cs { st with graphsBuilt := st.graphsBuilt + 2 }

/-- Gated block 4: `if (noErrors) { PostTypeContractLevelChecker{...}.check }`,
followed by the final `return noErrors;`. -/
def postTypeContractPhase (ast : Ast) (st : RunState) : TryOutcome :=
  if st.noErrors then
    accumStage .postTypeContractCheck ast.postTypeContractCheck st
      (fun st => .returned st.noErrors st)
  else .returned st.noErrors st

/-- Gated block 3: `if (noErrors) { for (contract : ...) { build graphs } }`. -/
def callGraphPhase (ast : Ast) (st : RunState) : TryOutcome :=
  if st.noErrors then
    match buildGraphLoop ast.contracts { st with trace := st.trace ++ [Stage.callGraph] } with
    | .error (e, st1) => .thrown e st1
    | .ok st1 => postTypeContractPhase ast st1
  else postTypeContractPhase ast st

/-- Gated block 2: `if (noErrors) { postTypeChecker.check; postTypeChecker.finalize }`.
Both calls sit inside the same gate: a failing `check` does not prevent
`finalize` from running. -/
def postTypePhase (ast : Ast) (st : RunState) : TryOutcome :=
  if st.noErrors then
    accumStage .postTypeCheck ast.postTypeCheck st fun st =>
    accumStage .postTypeFinalize ast.postTypeFinalize st fun st =>
    callGraphPhase ast st
  else callGraphPhase ast st

/-- Gated block 1: `if (noErrors) { docStringAnalyser.analyseDocStrings }`. -/
def docStringAnalysisPhase (ast : Ast) (st : RunState) : TryOutcome :=
  if st.noErrors then
    accumStage .docStringAnalysis ast.docStringAnalysis st fun st =>
    postTypePhase ast st
  else postTypePhase ast st

/-- The `try` block of `analyzeSourceUnit`, in source order:
`Scoper::assignScopes` (cannot fail), syntax check (accumulate),
`registerDeclarations` (abort), `performImports` (abort),
`warnHomonymDeclarations` (void), `parseDocStrings` (accumulate),
`resolveNamesAndTypes` (abort), `DeclarationTypeChecker::check` (abort),
`validateDocStringsUsingTypes` (accumulate), `ContractLevelChecker::check`
(accumulate), `TypeChecker::checkTypeRequirements` (accumulate), then the
four gated blocks, then `return noErrors;`. -/
def analyzeTryBody (ast : Ast) (st : RunState) : TryOutcome :=
  let st0 : RunState := { st with trace := st.trace ++ [Stage.scoper] }
  accumStage .syntaxCheck ast.syntaxCheck st0 fun st =>
  abortStage .registerDeclarations ast.registerDeclarations st fun st =>
  abortStage .performImports ast.performImports st fun st =>
  accumStage .parseDocStrings ast.parseDocStrings
    { st with
      trace := st.trace ++ [Stage.warnHomonyms],
      errors := st.errors ++ ast.homonymWarnings } fun st =>
  abortStage .resolveNamesAndTypes ast.resolveNamesAndTypes st fun st =>
  abortStage .declarationTypeCheck ast.declarationTypeCheck st fun st =>
  accumStage .validateDocStrings ast.validateDocStrings st fun st =>
  accumStage .contractLevelCheck ast.contractLevelCheck st fun st =>
  accumStage .typeCheck ast.typeCheck st fun st =>
  docStringAnalysisPhase ast st

/-- The function `analyzeSourceUnit(_ast, _errors)`: run the try block from a fresh
`noErrors = true` state over the caller's `ErrorList`, catching
`FatalError` and `std::exception` as `return false`.  The returned state
carries the `ErrorList` contents (mutated in place in the C++) plus the
instrumentation fields. -/
def analyzeSourceUnit (ast : Ast) (errors : List Diag) : Bool × RunState :=
  match analyzeTryBody ast { errors := errors, trace := [], noErrors := true, graphsBuilt := 0 } with
  | .returned b st => (b, st)
  | .thrown Exn.fatalError st => (false, st)
  | .thrown Exn.stdException st => (false, st)

/-! ## The external (FFI) interface

`sol_parser_parse`, `sol_analyze_parsed_ast_json` and
`sol_parser_get_errors` are the `extern "C"` entry points.  Nullable
pointer arguments are `Option`s; the context's mutation is modelled by
returning the new context alongside the result.  The entry points return
`Except Exn _`, where `.error e` would mean the C++ function let exception
`e` propagate uncaught to its caller; the catch clauses are the match arms
on the thrown exception. -/

/-- The struct `SolParserContext`: the per-session state, namely the `ErrorList` the
context's `ErrorReporter` appends to. -/
structure SolParserContext where
  errors : List Diag := []
deriving DecidableEq, Repr

/-- The loop of `sol_parser_get_errors`:
`for (error : ctx->errorList) oss << formatErrorType(type) << ": " << what << "\n";`. -/
def formatErrorLines (errors : List Diag) : String :=
  errors.foldl (fun acc d => acc ++ (d.kind ++ ": " ++ d.message ++ "\n")) ""

/-- The entry point `sol_parser_get_errors(ctx)`: null context yields null; otherwise the
formatted lines, or null when the accumulated string is empty. -/
def sol_parser_get_errors (ctx : Option SolParserContext) : Option String :=
  match ctx with
  | none => none
  | some c =>
    let result := formatErrorLines c.errors
    if result = "" then none else some result

/-- The pipeline-stage marker an exported JSON document is tagged with
(`CompilerStack::State::Parsed` vs `CompilerStack::State::AnalysisSuccessful`). -/
inductive StageMarker where
  | parsed
  | analysisSuccessful
deriving DecidableEq, Repr

/-- An exported JSON document, abstracted to what determines its bytes:
the stage marker passed to `ASTJsonExporter`, the source unit being
exported, and the source-unit name (the only key of `sourceIndices`).
The exporter itself is a pure function of these. -/
structure OutputDoc where
  stage : StageMarker
  ast : Ast
  sourceName : String
deriving DecidableEq, Repr

/-- The behaviour of the try block of `sol_parser_parse` on one source
text: the diagnostics the `Parser` appends to the (freshly cleared)
`ErrorList`, the AST it returns (`none` = parse failed, returned null),
and an exception raised anywhere in the block (`CharStream` construction,
`Parser::parse`, export, pretty-printing), raised after the diagnostics
were appended. -/
structure ParseBehavior where
  diags : List Diag := []
  result : Option Ast := none
  throws : Option Exn := none
deriving DecidableEq, Repr

/-- The entry point `sol_parser_parse(ctx, source, source_name)`.  Null checks first (the
context untouched), then the try block: clear the error list, parse,
export at stage `Parsed`; `catch (FatalError)` and `catch (std::exception)`
both return null. -/
def sol_parser_parse (ctx : Option SolParserContext) (source : Option ParseBehavior)
    (sourceName : Option String) :
    Except Exn (Option SolParserContext × Option OutputDoc) :=
  match ctx, source, sourceName with
  | some _, some src, some n =>
    let c1 : SolParserContext := { errors := src.diags }
    match src.throws with
    | some Exn.fatalError => .ok (some c1, none)
    | some Exn.stdException => .ok (some c1, none)
    | none =>
      match src.result with
      | none => .ok (some c1, none)
      | some a => .ok (some c1, some { stage := .parsed, ast := a, sourceName := n })
  | c, _, _ => .ok (c, none)

/-- The outcome of `importer.jsonToSourceUnit(sources)` for the one-entry
source map `{nameStr: astJson}`, as consumed by the wrapper: an exception,
an empty map (`asts.empty()`), a null pointer under the requested name
(`!asts[nameStr]`), or a source unit. -/
inductive ImportOutcome where
  | throws (e : Exn)
  | emptyMap
  | missingEntry
  | imported (a : Ast)
deriving DecidableEq, Repr

/-- The behaviour of the external calls in the try block of
`sol_analyze_parsed_ast_json` on one input string: whether `Json::parse`
raises (malformed JSON), what the AST import yields, and whether the
final export/pretty-print of the analyzed AST raises. -/
structure AnalyzeInput where
  jsonParseThrows : Option Exn := none
  importOutcome : ImportOutcome
  exportThrows : Option Exn := none
deriving DecidableEq, Repr

/-- The entry point `sol_analyze_parsed_ast_json(ctx, parsed_ast_json, source_name)`.
Null checks first (the context untouched), then the try block: clear the
error list, `Json::parse`, import, `analyzeSourceUnit` (null on `false`),
export at stage `AnalysisSuccessful`.  `catch (std::exception)` (which
also covers `FatalError`) and `catch (...)` both return null; the error
list keeps whatever was appended before the throw. -/
def sol_analyze_parsed_ast_json (ctx : Option SolParserContext)
    (input : Option AnalyzeInput) (sourceName : Option String) :
    Except Exn (Option SolParserContext × Option OutputDoc) :=
  match ctx, input, sourceName with
  | some _, some j, some n =>
    let c1 : SolParserContext := { errors := [] }
    match j.jsonParseThrows with
    | some Exn.fatalError => .ok (some c1, none)
    | some Exn.stdException => .ok (some c1, none)
    | none =>
      match j.importOutcome with
      | .throws Exn.fatalError => .ok (some c1, none)
      | .throws Exn.stdException => .ok (some c1, none)
      | .emptyMap => .ok (some c1, none)
      | .missingEntry => .ok (some c1, none)
      | .imported a =>
        let r := analyzeSourceUnit a c1.errors
        let c2 : SolParserContext := { errors := r.2.errors }
        if r.1 then
          match j.exportThrows with
          | some Exn.fatalError => .ok (some c2, none)
          | some Exn.stdException => .ok (some c2, none)
          | none =>
            .ok (some c2, some { stage := .analysisSuccessful, ast := a, sourceName := n })
        else .ok (some c2, none)
  | c, _, _ => .ok (c, none)

/-! ## Derived predicates and concrete inputs -/

/-- A stage behaviour that reports success: no exception, `true`,
no diagnostics appended. -/
def stageClean (r : StageResult) : Bool := r.throws.isNone && r.ok

/-- Both call-graph builds for a contract return normally. -/
def contractClean (c : ContractCG) : Bool :=
  c.creationThrows.isNone && c.deployedThrows.isNone

/-- Every pipeline stage of `analyzeSourceUnit` completes without raising
and without reporting failure on this source unit. -/
def pipelineClean (ast : Ast) : Bool :=
  stageClean ast.syntaxCheck &&
  (stageClean ast.registerDeclarations &&
  (stageClean ast.performImports &&
  (stageClean ast.parseDocStrings &&
  (stageClean ast.resolveNamesAndTypes &&
  (stageClean ast.declarationTypeCheck &&
  (stageClean ast.validateDocStrings &&
  (stageClean ast.contractLevelCheck &&
  (stageClean ast.typeCheck &&
  (stageClean ast.docStringAnalysis &&
  (stageClean ast.postTypeCheck &&
  (stageClean ast.postTypeFinalize &&
  (ast.contracts.all contractClean &&
  stageClean ast.postTypeContractCheck))))))))))))

/-- The boolean a `TryOutcome` would make `analyzeSourceUnit` return via
the `return` statement, or `none` if the try block raised. -/
def retOf : TryOutcome → Option Bool
  | .returned b _ => some b
  | .thrown _ _ => none

/-- The observable consequences of an abort-tier failure on `ast`: the
pipeline returns `false`, its execution trace is exactly `tr` (so no stage
after the failing one ran), and any `sol_analyze_parsed_ast_json` call
that imports this source unit returns no document. -/
def abortedRun (ast : Ast) (errors : List Diag) (tr : List Stage) : Prop :=
  (analyzeSourceUnit ast errors).1 = false ∧
  (analyzeSourceUnit ast errors).2.trace = tr ∧
  ∀ (c : SolParserContext) (n : String) (et : Option Exn),
    ∃ c2, sol_analyze_parsed_ast_json (some c)
      (some { jsonParseThrows := none, importOutcome := .imported ast, exportThrows := et })
      (some n) = .ok (some c2, none)

/-- A homonym-declaration warning as appended by `warnHomonymDeclarations`. -/
def dWarn : Diag := ⟨"Warning", "declaration shadows an existing declaration"⟩

/-- A first type error. -/
def dErrA : Diag := ⟨"TypeError", "first unrelated type error"⟩

/-- A second, independent type error. -/
def dErrB : Diag := ⟨"TypeError", "second unrelated type error"⟩

/-- A stage call that returns `false` without raising or appending. -/
def failStage : StageResult := { ok := false }

/-- A source unit on which every stage succeeds. -/
def astAllOk : Ast := {}

/-- A source unit with two declarations of the same name in unrelated
scopes: analysis succeeds but `warnHomonymDeclarations` appends a
warning. -/
def astHomonym : Ast := { homonymWarnings := [dWarn] }

/-- A source unit on which declaration registration fails. -/
def astRegFail : Ast := { registerDeclarations := failStage }

/-- A source unit on which import resolution fails. -/
def astImportFail : Ast := { performImports := failStage }

/-- A source unit on which name-and-type resolution fails. -/
def astResolveFail : Ast := { resolveNamesAndTypes := failStage }

/-- A source unit on which declaration type checking fails. -/
def astDeclFail : Ast := { declarationTypeCheck := failStage }

/-- A stage call reporting the two independent type errors. -/
def twoErrorStage : StageResult := { ok := false, diags := [dErrA, dErrB] }

/-- A source unit with a contract-level error and, in addition, two
independent type errors in unrelated functions. -/
def astTwoTypeErrors : Ast :=
  { contractLevelCheck := failStage, typeCheck := twoErrorStage }

/-- An analyze input whose JSON parses and imports to the given source
unit. -/
def inputOf (a : Ast) : AnalyzeInput := { importOutcome := .imported a }

/-- An analyze input whose string is malformed JSON (`Json::parse`
raises). -/
def malformedInput : AnalyzeInput :=
  { jsonParseThrows := some .stdException, importOutcome := .emptyMap }

/-! ## Lemmas about the diagnostics formatting loop -/

theorem foldl_formatLine_eq_append (l : List Diag) (acc : String) :
    l.foldl (fun a d => a ++ (d.kind ++ ": " ++ d.message ++ "\n")) acc
      = acc ++ formatErrorLines l := by
  induction l generalizing acc with
  | nil => simp [formatErrorLines]
  | cons d rest ih =>
    simp only [formatErrorLines, List.foldl_cons] at *
    rw [ih, ih ("" ++ (d.kind ++ ": " ++ d.message ++ "\n"))]
    rw [String.empty_append, String.append_assoc]

theorem formatErrorLines_cons (d : Diag) (l : List Diag) :
    formatErrorLines (d :: l)
      = (d.kind ++ ": " ++ d.message ++ "\n") ++ formatErrorLines l := by
  simp only [formatErrorLines, List.foldl_cons]
  rw [foldl_formatLine_eq_append, String.empty_append]
  rfl

theorem formatErrorLines_eq_empty_iff (l : List Diag) :
    formatErrorLines l = "" ↔ l = [] := by
  cases l with
  | nil => simp [formatErrorLines]
  | cons d rest =>
    rw [formatErrorLines_cons]
    constructor
    · intro h
      have h2 := congrArg String.length h
      have hc : (": " : String).length = 2 := rfl
      have hn : ("\n" : String).length = 1 := rfl
      have he : ("" : String).length = 0 := rfl
      simp only [String.length_append, hc, hn, he] at h2
      omega
    · intro h
      exact absurd h (by simp)

theorem formatErrorLines_eq_join (l : List Diag) :
    formatErrorLines l
      = String.join (l.map fun d => d.kind ++ ": " ++ d.message ++ "\n") := by
  simp [formatErrorLines, String.join, List.foldl_map]

/-! ## Claim theorems -/

/-- C8: for every context, the diagnostics query `sol_parser_get_errors`
returns no result exactly when the context's diagnostic list is empty, and
otherwise returns one line per diagnostic, in append order, each line
formatted as the diagnostic's kind, a colon and space, and its message. -/
theorem C8_diagnostics_query_format (c : SolParserContext) :
    (sol_parser_get_errors (some c) = none ↔ c.errors = []) ∧
    sol_parser_get_errors (some c)
      = (if c.errors = [] then none
         else some (String.join (c.errors.map fun d => d.kind ++ ": " ++ d.message ++ "\n"))) := by
  have hmain : sol_parser_get_errors (some c)
      = (if c.errors = [] then none
         else some (String.join (c.errors.map fun d => d.kind ++ ": " ++ d.message ++ "\n"))) := by
    by_cases h : c.errors = []
    · simp [sol_parser_get_errors, h, formatErrorLines]
    · have hne : formatErrorLines c.errors ≠ "" := by
        rw [Ne, formatErrorLines_eq_empty_iff]; exact h
      show (if formatErrorLines c.errors = "" then none
            else some (formatErrorLines c.errors)) = _
      rw [if_neg hne, if_neg h, formatErrorLines_eq_join]
  refine ⟨?_, hmain⟩
  rw [hmain]
  by_cases h : c.errors = [] <;> simp [h]

/-- C8 witness: the diagnostics query formats one warning diagnostic as a
single `kind: message` line. -/
theorem C8_witness :
    (sol_parser_get_errors (some { errors := [dWarn] }) = none ↔ [dWarn] = ([] : List Diag)) ∧
    sol_parser_get_errors (some { errors := [dWarn] })
      = (if [dWarn] = ([] : List Diag) then none
         else some (String.join ([dWarn].map fun d => d.kind ++ ": " ++ d.message ++ "\n"))) :=
  C8_diagnostics_query_format { errors := [dWarn] }

/-- C10: for every call to `sol_parser_parse` or
`sol_analyze_parsed_ast_json` in which the context handle, the
source/JSON string, or the source-unit name is null, the call returns no
result immediately and the context — including its diagnostic list — is
left unchanged (in particular it is not cleared). -/
theorem C10_null_arguments_leave_context_unchanged
    (ctx : Option SolParserContext) (src : Option ParseBehavior)
    (j : Option AnalyzeInput) (nm : Option String) :
    (ctx = none ∨ src = none ∨ nm = none →
      sol_parser_parse ctx src nm = .ok (ctx, none)) ∧
    (ctx = none ∨ j = none ∨ nm = none →
      sol_analyze_parsed_ast_json ctx j nm = .ok (ctx, none)) := by
  constructor
  · rintro (rfl | rfl | rfl)
    · cases src <;> cases nm <;> rfl
    · cases ctx <;> cases nm <;> rfl
    · cases ctx <;> cases src <;> rfl
  · rintro (rfl | rfl | rfl)
    · cases j <;> cases nm <;> rfl
    · cases ctx <;> cases nm <;> rfl
    · cases ctx <;> cases j <;> rfl

/-- C10 witness: a null source string leaves a non-empty diagnostic list
in place and returns no result. -/
theorem C10_witness :
    sol_parser_parse (some { errors := [dWarn] }) none (some "C.sol")
        = .ok (some { errors := [dWarn] }, none) ∧
    sol_analyze_parsed_ast_json (some { errors := [dWarn] }) none (some "C.sol")
        = .ok (some { errors := [dWarn] }, none) := by
  refine ⟨?_, ?_⟩
  · exact (C10_null_arguments_leave_context_unchanged
      (some { errors := [dWarn] }) none none (some "C.sol")).1 (Or.inr (Or.inl rfl))
  · exact (C10_null_arguments_leave_context_unchanged
      (some { errors := [dWarn] }) none none (some "C.sol")).2 (Or.inr (Or.inl rfl))

/-- C5: for every Analyze call whose input string is malformed JSON
(`Json::parse` raises), or whose imported AST map is empty or lacks an
entry for the requested source-unit name, the call returns no result and
no diagnostic is synthesized: the diagnostic list was cleared at the start
of the call, so it is empty afterwards. -/
theorem C5_structural_failure_no_diagnostics
    (c : SolParserContext) (j : AnalyzeInput) (n : String)
    (h : j.jsonParseThrows ≠ none ∨ j.importOutcome = ImportOutcome.emptyMap
          ∨ j.importOutcome = ImportOutcome.missingEntry) :
    sol_analyze_parsed_ast_json (some c) (some j) (some n)
      = .ok (some { errors := [] }, none) := by
  rcases hj : j.jsonParseThrows with _ | e
  · rcases h with h | h | h
    · exact absurd hj h
    · simp [sol_analyze_parsed_ast_json, hj, h]
    · simp [sol_analyze_parsed_ast_json, hj, h]
  · cases e <;> simp [sol_analyze_parsed_ast_json, hj]

/-- C5 witness: a malformed-JSON call on a context holding prior
diagnostics returns no result with an empty diagnostic list. -/
theorem C5_witness :
    sol_analyze_parsed_ast_json (some { errors := [dWarn] }) (some malformedInput) (some "C.sol")
      = .ok (some { errors := [] }, none) :=
  C5_structural_failure_no_diagnostics { errors := [dWarn] } malformedInput "C.sol"
    (Or.inl (by simp [malformedInput]))

/-- C6: no call to `sol_parser_parse` or `sol_analyze_parsed_ast_json`
ever propagates an exception to the caller across the external interface:
every internal fault raised during the call is caught by the call's catch
clauses and converted into a no-result return (the result is always in the
`Except.ok` range, never `Except.error`).  The diagnostics query
`sol_parser_get_errors` is a total function in this embedding — its body
performs no raising operation — so exception-freedom holds for it by
construction. -/
theorem C6_no_uncaught_exception
    (ctx ctx2 : Option SolParserContext) (src : Option ParseBehavior)
    (j : Option AnalyzeInput) (n n2 : Option String) :
    (∃ v, sol_parser_parse ctx src n = .ok v) ∧
    (∃ v, sol_analyze_parsed_ast_json ctx2 j n2 = .ok v) := by
  constructor
  · simp only [sol_parser_parse]
    repeat' split
    all_goals exact ⟨_, rfl⟩
  · simp only [sol_analyze_parsed_ast_json]
    repeat' split
    all_goals exact ⟨_, rfl⟩

/-- C6 witness: concrete calls of both entry points stay in the
`Except.ok` range. -/
theorem C6_witness :
    (∃ v, sol_parser_parse (some { errors := [] })
        (some { throws := some Exn.fatalError }) (some "C.sol") = .ok v) ∧
    (∃ v, sol_analyze_parsed_ast_json (some { errors := [] })
        (some malformedInput) (some "C.sol") = .ok v) :=
  C6_no_uncaught_exception (some { errors := [] }) (some { errors := [] })
    (some { throws := some Exn.fatalError }) (some malformedInput)
    (some "C.sol") (some "C.sol")

/-- C7: analysis is deterministic across contexts: two Analyze calls with
the same parsed-AST input and source-unit name on two freshly created
contexts (empty diagnostic lists) return identical results — both no
result, or both the same `AnalysisSuccessful` document. -/
theorem C7_analysis_deterministic_across_contexts
    (c1 c2 : SolParserContext) (j : AnalyzeInput) (n : String)
    (h1 : c1.errors = []) (h2 : c2.errors = []) :
    sol_analyze_parsed_ast_json (some c1) (some j) (some n)
      = sol_analyze_parsed_ast_json (some c2) (some j) (some n) := by
  cases c1
  cases c2
  simp_all

/-- C7 witness: two fresh contexts analyzing the homonym source unit
produce the same result. -/
theorem C7_witness :
    sol_analyze_parsed_ast_json (some { errors := [] }) (some (inputOf astHomonym)) (some "C.sol")
      = sol_analyze_parsed_ast_json (some { errors := [] }) (some (inputOf astHomonym)) (some "C.sol") :=
  C7_analysis_deterministic_across_contexts { errors := [] } { errors := [] }
    (inputOf astHomonym) "C.sol" rfl rfl

/-- C9: Analyze can return an `AnalysisSuccessful` document while the
context's diagnostic list is non-empty: on a source unit whose only
diagnostic producer is the unconditional homonym-declaration warning step
(which appends warnings without marking any stage failed), the call
returns an annotated document and the diagnostics query afterwards is
non-empty — success of Analyze does not imply an empty diagnostics
query. -/
theorem C9_success_with_nonempty_diagnostics :
    ∃ (c : SolParserContext) (j : AnalyzeInput) (n : String)
      (c2 : SolParserContext) (doc : OutputDoc),
      sol_analyze_parsed_ast_json (some c) (some j) (some n) = .ok (some c2, some doc) ∧
      doc.stage = StageMarker.analysisSuccessful ∧
      c2.errors = [dWarn] ∧
      sol_parser_get_errors (some c2) ≠ none := by
  refine ⟨{ errors := [] }, inputOf astHomonym, "C.sol", { errors := [dWarn] },
    ⟨StageMarker.analysisSuccessful, astHomonym, "C.sol"⟩, ?_, rfl, rfl, ?_⟩
  · rfl
  · simp [sol_parser_get_errors, formatErrorLines, dWarn]

/-- C1: if one of the abort-tier stages — declaration registration, import
resolution, name-and-type resolution, declaration type checking — reports
failure, the pipeline stops at that stage: `analyzeSourceUnit` returns
`false`, its execution trace ends exactly at the failing stage (no
subsequent stage runs), and `sol_analyze_parsed_ast_json` returns no
annotated document for that source unit. -/
theorem C1_abort_tier_stops_pipeline (ast : Ast) (errors : List Diag) :
    (ast.syntaxCheck.throws = none →
     ast.registerDeclarations.throws = none →
     ast.registerDeclarations.ok = false →
     abortedRun ast errors
       [Stage.scoper, Stage.syntaxCheck, Stage.registerDeclarations]) ∧
    (ast.syntaxCheck.throws = none →
     ast.registerDeclarations.throws = none → ast.registerDeclarations.ok = true →
     ast.performImports.throws = none → ast.performImports.ok = false →
     abortedRun ast errors
       [Stage.scoper, Stage.syntaxCheck, Stage.registerDeclarations,
        Stage.performImports]) ∧
    (ast.syntaxCheck.throws = none →
     ast.registerDeclarations.throws = none → ast.registerDeclarations.ok = true →
     ast.performImports.throws = none → ast.performImports.ok = true →
     ast.parseDocStrings.throws = none →
     ast.resolveNamesAndTypes.throws = none → ast.resolveNamesAndTypes.ok = false →
     abortedRun ast errors
       [Stage.scoper, Stage.syntaxCheck, Stage.registerDeclarations,
        Stage.performImports, Stage.warnHomonyms, Stage.parseDocStrings,
        Stage.resolveNamesAndTypes]) ∧
    (ast.syntaxCheck.throws = none →
     ast.registerDeclarations.throws = none → ast.registerDeclarations.ok = true →
     ast.performImports.throws = none → ast.performImports.ok = true →
     ast.parseDocStrings.throws = none →
     ast.resolveNamesAndTypes.throws = none → ast.resolveNamesAndTypes.ok = true →
     ast.declarationTypeCheck.throws = none → ast.declarationTypeCheck.ok = false →
     abortedRun ast errors
       [Stage.scoper, Stage.syntaxCheck, Stage.registerDeclarations,
        Stage.performImports, Stage.warnHomonyms, Stage.parseDocStrings,
        Stage.resolveNamesAndTypes, Stage.declarationTypeCheck]) := by
  refine ⟨?_, ?_, ?_, ?_⟩
  · intro h1 h2 h3
    have key : ∀ es : List Diag, (analyzeSourceUnit ast es).1 = false ∧
        (analyzeSourceUnit ast es).2.trace
          = [Stage.scoper, Stage.syntaxCheck, Stage.registerDeclarations] := by
      intro es
      simp [analyzeSourceUnit, analyzeTryBody, accumStage, abortStage, h1, h2, h3]
    refine ⟨(key errors).1, (key errors).2, ?_⟩
    intro c n et
    refine ⟨{ errors := (analyzeSourceUnit ast []).2.errors }, ?_⟩
    simp [sol_analyze_parsed_ast_json, (key []).1]
  · intro h1 h2 h3 h4 h5
    have key : ∀ es : List Diag, (analyzeSourceUnit ast es).1 = false ∧
        (analyzeSourceUnit ast es).2.trace
          = [Stage.scoper, Stage.syntaxCheck, Stage.registerDeclarations,
             Stage.performImports] := by
      intro es
      simp [analyzeSourceUnit, analyzeTryBody, accumStage, abortStage, h1, h2, h3, h4, h5]
    refine ⟨(key errors).1, (key errors).2, ?_⟩
    intro c n et
    refine ⟨{ errors := (analyzeSourceUnit ast []).2.errors }, ?_⟩
    simp [sol_analyze_parsed_ast_json, (key []).1]
  · intro h1 h2 h3 h4 h5 h6 h7 h8
    have key : ∀ es : List Diag, (analyzeSourceUnit ast es).1 = false ∧
        (analyzeSourceUnit ast es).2.trace
          = [Stage.scoper, Stage.syntaxCheck, Stage.registerDeclarations,
             Stage.performImports, Stage.warnHomonyms, Stage.parseDocStrings,
             Stage.resolveNamesAndTypes] := by
      intro es
      simp [analyzeSourceUnit, analyzeTryBody, accumStage, abortStage,
        h1, h2, h3, h4, h5, h6, h7, h8]
    refine ⟨(key errors).1, (key errors).2, ?_⟩
    intro c n et
    refine ⟨{ errors := (analyzeSourceUnit ast []).2.errors }, ?_⟩
    simp [sol_analyze_parsed_ast_json, (key []).1]
  · intro h1 h2 h3 h4 h5 h6 h7 h8 h9 h10
    have key : ∀ es : List Diag, (analyzeSourceUnit ast es).1 = false ∧
        (analyzeSourceUnit ast es).2.trace
          = [Stage.scoper, Stage.syntaxCheck, Stage.registerDeclarations,
             Stage.performImports, Stage.warnHomonyms, Stage.parseDocStrings,
             Stage.resolveNamesAndTypes, Stage.declarationTypeCheck] := by
      intro es
      simp [analyzeSourceUnit, analyzeTryBody, accumStage, abortStage,
        h1, h2, h3, h4, h5, h6, h7, h8, h9, h10]
    refine ⟨(key errors).1, (key errors).2, ?_⟩
    intro c n et
    refine ⟨{ errors := (analyzeSourceUnit ast []).2.errors }, ?_⟩
    simp [sol_analyze_parsed_ast_json, (key []).1]

/-- C1 witness: each of the four abort-tier stages, failing on a concrete
source unit, aborts with exactly the expected trace. -/
theorem C1_witness :
    abortedRun astRegFail []
      [Stage.scoper, Stage.syntaxCheck, Stage.registerDeclarations] ∧
    abortedRun astImportFail []
      [Stage.scoper, Stage.syntaxCheck, Stage.registerDeclarations,
       Stage.performImports] ∧
    abortedRun astResolveFail []
      [Stage.scoper, Stage.syntaxCheck, Stage.registerDeclarations,
       Stage.performImports, Stage.warnHomonyms, Stage.parseDocStrings,
       Stage.resolveNamesAndTypes] ∧
    abortedRun astDeclFail []
      [Stage.scoper, Stage.syntaxCheck, Stage.registerDeclarations,
       Stage.performImports, Stage.warnHomonyms, Stage.parseDocStrings,
       Stage.resolveNamesAndTypes, Stage.declarationTypeCheck] :=
  ⟨(C1_abort_tier_stops_pipeline astRegFail []).1 rfl rfl rfl,
   (C1_abort_tier_stops_pipeline astImportFail []).2.1 rfl rfl rfl rfl rfl,
   (C1_abort_tier_stops_pipeline astResolveFail []).2.2.1 rfl rfl rfl rfl rfl rfl rfl rfl,
   (C1_abort_tier_stops_pipeline astDeclFail []).2.2.2 rfl rfl rfl rfl rfl rfl rfl rfl rfl rfl⟩

/-- C2: failure of an accumulate-tier stage does not stop execution of the
subsequent accumulate-tier stages: with a contract-level check failure,
the type checker still runs (the trace covers the whole accumulate tier),
and two independent type errors it reports both end up in the diagnostic
list. -/
theorem C2_accumulate_tier_continues (ast : Ast) (errors : List Diag) (d1 d2 : Diag)
    (h1 : ast.syntaxCheck.throws = none)
    (h2 : ast.registerDeclarations.throws = none) (h3 : ast.registerDeclarations.ok = true)
    (h4 : ast.performImports.throws = none) (h5 : ast.performImports.ok = true)
    (h6 : ast.parseDocStrings.throws = none)
    (h7 : ast.resolveNamesAndTypes.throws = none) (h8 : ast.resolveNamesAndTypes.ok = true)
    (h9 : ast.declarationTypeCheck.throws = none) (h10 : ast.declarationTypeCheck.ok = true)
    (h11 : ast.validateDocStrings.throws = none)
    (h12 : ast.contractLevelCheck.throws = none) (h13 : ast.contractLevelCheck.ok = false)
    (h14 : ast.typeCheck.throws = none) (h15 : ast.typeCheck.diags = [d1, d2]) :
    (analyzeSourceUnit ast errors).1 = false ∧
    (analyzeSourceUnit ast errors).2.trace
      = [Stage.scoper, Stage.syntaxCheck, Stage.registerDeclarations,
         Stage.performImports, Stage.warnHomonyms, Stage.parseDocStrings,
         Stage.resolveNamesAndTypes, Stage.declarationTypeCheck,
         Stage.validateDocStrings, Stage.contractLevelCheck, Stage.typeCheck] ∧
    d1 ∈ (analyzeSourceUnit ast errors).2.errors ∧
    d2 ∈ (analyzeSourceUnit ast errors).2.errors := by
  simp [analyzeSourceUnit, analyzeTryBody, accumStage, abortStage,
    docStringAnalysisPhase, postTypePhase, callGraphPhase, postTypeContractPhase,
    h1, h2, h3, h4, h5, h6, h7, h8, h9, h10, h11, h12, h13, h14, h15]

/-- C2 witness: the concrete source unit with a contract-level error and
two independent type errors yields diagnostics for both type errors. -/
theorem C2_witness :
    (analyzeSourceUnit astTwoTypeErrors []).1 = false ∧
    (analyzeSourceUnit astTwoTypeErrors []).2.trace
      = [Stage.scoper, Stage.syntaxCheck, Stage.registerDeclarations,
         Stage.performImports, Stage.warnHomonyms, Stage.parseDocStrings,
         Stage.resolveNamesAndTypes, Stage.declarationTypeCheck,
         Stage.validateDocStrings, Stage.contractLevelCheck, Stage.typeCheck] ∧
    dErrA ∈ (analyzeSourceUnit astTwoTypeErrors []).2.errors ∧
    dErrB ∈ (analyzeSourceUnit astTwoTypeErrors []).2.errors :=
  C2_accumulate_tier_continues astTwoTypeErrors [] dErrA dErrB
    rfl rfl rfl rfl rfl rfl rfl rfl rfl rfl rfl rfl rfl rfl rfl

/-- C3: the gated stages — docstring analysis, post-type checking,
call-graph construction, post-type contract-level checking — execute only
while no earlier stage has reported failure: once any accumulate-tier
stage has failed, none of the gated stages runs and no call graph is
constructed. -/
theorem C3_gated_stages_skipped_after_failure (ast : Ast) (errors : List Diag)
    (h1 : ast.syntaxCheck.throws = none)
    (h2 : ast.registerDeclarations.throws = none) (h3 : ast.registerDeclarations.ok = true)
    (h4 : ast.performImports.throws = none) (h5 : ast.performImports.ok = true)
    (h6 : ast.parseDocStrings.throws = none)
    (h7 : ast.resolveNamesAndTypes.throws = none) (h8 : ast.resolveNamesAndTypes.ok = true)
    (h9 : ast.declarationTypeCheck.throws = none) (h10 : ast.declarationTypeCheck.ok = true)
    (h11 : ast.validateDocStrings.throws = none)
    (h12 : ast.contractLevelCheck.throws = none)
    (h13 : ast.typeCheck.throws = none)
    (hfail : ast.syntaxCheck.ok = false ∨ ast.parseDocStrings.ok = false ∨
             ast.validateDocStrings.ok = false ∨ ast.contractLevelCheck.ok = false ∨
             ast.typeCheck.ok = false) :
    (analyzeSourceUnit ast errors).1 = false ∧
    Stage.docStringAnalysis ∉ (analyzeSourceUnit ast errors).2.trace ∧
    Stage.postTypeCheck ∉ (analyzeSourceUnit ast errors).2.trace ∧
    Stage.postTypeFinalize ∉ (analyzeSourceUnit ast errors).2.trace ∧
    Stage.callGraph ∉ (analyzeSourceUnit ast errors).2.trace ∧
    Stage.postTypeContractCheck ∉ (analyzeSourceUnit ast errors).2.trace ∧
    (analyzeSourceUnit ast errors).2.graphsBuilt = 0 := by
  rcases hfail with hf | hf | hf | hf | hf <;>
    simp [analyzeSourceUnit, analyzeTryBody, accumStage, abortStage,
      docStringAnalysisPhase, postTypePhase, callGraphPhase, postTypeContractPhase,
      h1, h2, h3, h4, h5, h6, h7, h8, h9, h10, h11, h12, h13, hf]

/-- C3 witness: on the source unit with a contract-level failure, no gated
stage appears in the trace and zero call graphs are built. -/
theorem C3_witness :
    (analyzeSourceUnit astTwoTypeErrors []).1 = false ∧
    Stage.docStringAnalysis ∉ (analyzeSourceUnit astTwoTypeErrors []).2.trace ∧
    Stage.postTypeCheck ∉ (analyzeSourceUnit astTwoTypeErrors []).2.trace ∧
    Stage.postTypeFinalize ∉ (analyzeSourceUnit astTwoTypeErrors []).2.trace ∧
    Stage.callGraph ∉ (analyzeSourceUnit astTwoTypeErrors []).2.trace ∧
    Stage.postTypeContractCheck ∉ (analyzeSourceUnit astTwoTypeErrors []).2.trace ∧
    (analyzeSourceUnit astTwoTypeErrors []).2.graphsBuilt = 0 :=
  C3_gated_stages_skipped_after_failure astTwoTypeErrors []
    rfl rfl rfl rfl rfl rfl rfl rfl rfl rfl rfl rfl rfl
    (Or.inr (Or.inr (Or.inr (Or.inl rfl))))

/-! ## Characterization of pipeline success (for C4) -/

theorem buildGraphLoop_ok_inv : ∀ (cs : List ContractCG) (st st1 : RunState),
    buildGraphLoop cs st = .ok st1 →
    st1.noErrors = st.noErrors ∧ ∀ c ∈ cs, contractClean c = true := by
  intro cs
  induction cs with
  | nil =>
    intro st st1 h
    simp only [buildGraphLoop, Except.ok.injEq] at h
    subst h
    simp
  | cons c cs ih =>
    intro st st1 h
    simp only [buildGraphLoop] at h
    cases hc : c.creationThrows with
    | some e => rw [hc] at h; exact absurd h (by simp)
    | none =>
      rw [hc] at h
      cases hd : c.deployedThrows with
      | some e => rw [hd] at h; exact absurd h (by simp)
      | none =>
        rw [hd] at h
        obtain ⟨hne, hall⟩ := ih _ _ h
        refine ⟨by rw [hne], ?_⟩
        intro x hx
        rcases List.mem_cons.mp hx with hx | hx
        · subst hx; simp [contractClean, hc, hd]
        · exact hall x hx

theorem buildGraphLoop_clean : ∀ (cs : List ContractCG) (st : RunState),
    (∀ c ∈ cs, contractClean c = true) →
    ∃ k, buildGraphLoop cs st = .ok { st with graphsBuilt := k } := by
  intro cs
  induction cs with
  | nil =>
    intro st _
    exact ⟨st.graphsBuilt, rfl⟩
  | cons c cs ih =>
    intro st h
    have hc := h c (List.mem_cons_self c cs)
    rw [contractClean, Bool.and_eq_true, Option.isNone_iff_eq_none,
      Option.isNone_iff_eq_none] at hc
    obtain ⟨k, hk⟩ := ih { st with graphsBuilt := st.graphsBuilt + 2 }
      (fun x hx => h x (List.mem_cons_of_mem c hx))
    exact ⟨k, by simp [buildGraphLoop, hc.1, hc.2, hk]⟩

theorem postTypeContractPhase_ret_true (ast : Ast) (st st2 : RunState)
    (h : postTypeContractPhase ast st = .returned true st2) :
    st.noErrors = true ∧ stageClean ast.postTypeContractCheck = true := by
  cases hn : st.noErrors with
  | false =>
    rw [postTypeContractPhase, if_neg (by simp [hn])] at h
    rw [hn] at h
    exact absurd h (by simp)
  | true =>
    rw [postTypeContractPhase, if_pos hn] at h
    cases ht : ast.postTypeContractCheck.throws with
    | some e => simp [accumStage, ht] at h
    | none =>
      simp only [accumStage, ht, TryOutcome.returned.injEq] at h
      refine ⟨rfl, ?_⟩
      have h1 := h.1
      simp only [hn, Bool.true_and] at h1
      simp [stageClean, ht, h1]

theorem callGraphPhase_ret_true (ast : Ast) (st st2 : RunState)
    (h : callGraphPhase ast st = .returned true st2) :
    st.noErrors = true ∧ ast.contracts.all contractClean = true ∧
    stageClean ast.postTypeContractCheck = true := by
  cases hn : st.noErrors with
  | false =>
    rw [callGraphPhase, if_neg (by simp [hn])] at h
    have h1 := (postTypeContractPhase_ret_true ast st st2 h).1
    rw [hn] at h1
    exact absurd h1 (by simp)
  | true =>
    rw [callGraphPhase, if_pos hn] at h
    cases hbg : buildGraphLoop ast.contracts { st with trace := st.trace ++ [Stage.callGraph] } with
    | error p =>
      obtain ⟨e, st1⟩ := p
      rw [hbg] at h
      exact absurd h (by simp)
    | ok st1 =>
      rw [hbg] at h
      obtain ⟨_, h2⟩ := postTypeContractPhase_ret_true ast st1 st2 h
      obtain ⟨_, hall⟩ := buildGraphLoop_ok_inv _ _ _ hbg
      exact ⟨rfl, List.all_eq_true.mpr hall, h2⟩

theorem postTypePhase_ret_true (ast : Ast) (st st2 : RunState)
    (h : postTypePhase ast st = .returned true st2) :
    st.noErrors = true ∧ stageClean ast.postTypeCheck = true ∧
    stageClean ast.postTypeFinalize = true ∧
    ast.contracts.all contractClean = true ∧
    stageClean ast.postTypeContractCheck = true := by
  cases hn : st.noErrors with
  | false =>
    rw [postTypePhase, if_neg (by simp [hn])] at h
    have h1 := (callGraphPhase_ret_true ast st st2 h).1
    rw [hn] at h1
    exact absurd h1 (by simp)
  | true =>
    rw [postTypePhase, if_pos hn] at h
    cases ht1 : ast.postTypeCheck.throws with
    | some e => simp [accumStage, ht1] at h
    | none =>
      cases ht2 : ast.postTypeFinalize.throws with
      | some e => simp [accumStage, ht1, ht2] at h
      | none =>
        simp only [accumStage, ht1, ht2] at h
        obtain ⟨h1, h2, h3⟩ := callGraphPhase_ret_true _ _ _ h
        simp only [hn, Bool.true_and, Bool.and_eq_true] at h1
        refine ⟨rfl, ?_, ?_, h2, h3⟩
        · simp [stageClean, ht1, h1.1]
        · simp [stageClean, ht2, h1.2]

theorem docStringAnalysisPhase_ret_true (ast : Ast) (st st2 : RunState)
    (h : docStringAnalysisPhase ast st = .returned true st2) :
    st.noErrors = true ∧ stageClean ast.docStringAnalysis = true ∧
    stageClean ast.postTypeCheck = true ∧
    stageClean ast.postTypeFinalize = true ∧
    ast.contracts.all contractClean = true ∧
    stageClean ast.postTypeContractCheck = true := by
  cases hn : st.noErrors with
  | false =>
    rw [docStringAnalysisPhase, if_neg (by simp [hn])] at h
    have h1 := (postTypePhase_ret_true ast st st2 h).1
    rw [hn] at h1
    exact absurd h1 (by simp)
  | true =>
    rw [docStringAnalysisPhase, if_pos hn] at h
    cases ht : ast.docStringAnalysis.throws with
    | some e => simp [accumStage, ht] at h
    | none =>
      simp only [accumStage, ht] at h
      obtain ⟨h1, h2, h3, h4, h5⟩ := postTypePhase_ret_true _ _ _ h
      simp only [hn, Bool.true_and] at h1
      exact ⟨rfl, by simp [stageClean, ht, h1], h2, h3, h4, h5⟩

theorem analyzeTryBody_ret_true (ast : Ast) (st st2 : RunState)
    (h : analyzeTryBody ast st = .returned true st2) :
    pipelineClean ast = true := by
  rw [analyzeTryBody] at h
  cases h1 : ast.syntaxCheck.throws with
  | some e => simp [accumStage, h1] at h
  | none =>
  simp only [accumStage, abortStage, h1] at h
  cases h2 : ast.registerDeclarations.throws with
  | some e => simp [h2] at h
  | none =>
  cases h3 : ast.registerDeclarations.ok with
  | false => simp [h2, h3] at h
  | true =>
  simp only [h2, h3, if_true] at h
  cases h4 : ast.performImports.throws with
  | some e => simp [h4] at h
  | none =>
  cases h5 : ast.performImports.ok with
  | false => simp [h4, h5] at h
  | true =>
  simp only [h4, h5, if_true] at h
  cases h6 : ast.parseDocStrings.throws with
  | some e => simp [h6] at h
  | none =>
  simp only [h6] at h
  cases h7 : ast.resolveNamesAndTypes.throws with
  | some e => simp [h7] at h
  | none =>
  cases h8 : ast.resolveNamesAndTypes.ok with
  | false => simp [h7, h8] at h
  | true =>
  simp only [h7, h8, if_true] at h
  cases h9 : ast.declarationTypeCheck.throws with
  | some e => simp [h9] at h
  | none =>
  cases h10 : ast.declarationTypeCheck.ok with
  | false => simp [h9, h10] at h
  | true =>
  simp only [h9, h10, if_true] at h
  cases h11 : ast.validateDocStrings.throws with
  | some e => simp [h11] at h
  | none =>
  simp only [h11] at h
  cases h12 : ast.contractLevelCheck.throws with
  | some e => simp [h12] at h
  | none =>
  simp only [h12] at h
  cases h13 : ast.typeCheck.throws with
  | some e => simp [h13] at h
  | none =>
  simp only [h13] at h
  obtain ⟨hb, c10, c11, c12, c13, c14⟩ := docStringAnalysisPhase_ret_true _ _ _ h
  simp only [Bool.and_eq_true] at hb
  obtain ⟨⟨⟨⟨⟨-, hsyn⟩, hpdoc⟩, hvdoc⟩, hclc⟩, htc⟩ := hb
  simp only [pipelineClean, Bool.and_eq_true]
  refine ⟨?_, ?_, ?_, ?_, ?_, ?_, ?_, ?_, ?_, c10, c11, c12, c13, c14⟩
  · simp [stageClean, h1, hsyn]
  · simp [stageClean, h2, h3]
  · simp [stageClean, h4, h5]
  · simp [stageClean, h6, hpdoc]
  · simp [stageClean, h7, h8]
  · simp [stageClean, h9, h10]
  · simp [stageClean, h11, hvdoc]
  · simp [stageClean, h12, hclc]
  · simp [stageClean, h13, htc]

theorem postTypeContractPhase_clean (ast : Ast) (st : RunState)
    (hn : st.noErrors = true) (hc : stageClean ast.postTypeContractCheck = true) :
    retOf (postTypeContractPhase ast st) = some true := by
  rw [stageClean, Bool.and_eq_true, Option.isNone_iff_eq_none] at hc
  rw [postTypeContractPhase, if_pos hn]
  simp [accumStage, hc.1, hc.2, retOf, hn]

theorem callGraphPhase_clean (ast : Ast) (st : RunState)
    (hn : st.noErrors = true) (hcg : ast.contracts.all contractClean = true)
    (hptc : stageClean ast.postTypeContractCheck = true) :
    retOf (callGraphPhase ast st) = some true := by
  obtain ⟨k, hk⟩ := buildGraphLoop_clean ast.contracts
    { st with trace := st.trace ++ [Stage.callGraph] } (List.all_eq_true.mp hcg)
  rw [callGraphPhase, if_pos hn, hk]
  exact postTypeContractPhase_clean ast _ (by simp [hn]) hptc

theorem postTypePhase_clean (ast : Ast) (st : RunState)
    (hn : st.noErrors = true)
    (h1 : stageClean ast.postTypeCheck = true)
    (h2 : stageClean ast.postTypeFinalize = true)
    (hcg : ast.contracts.all contractClean = true)
    (hptc : stageClean ast.postTypeContractCheck = true) :
    retOf (postTypePhase ast st) = some true := by
  rw [stageClean, Bool.and_eq_true, Option.isNone_iff_eq_none] at h1 h2
  rw [postTypePhase, if_pos hn]
  simp only [accumStage, h1.1, h2.1]
  exact callGraphPhase_clean ast _ (by simp [hn, h1.2, h2.2]) hcg hptc

theorem docStringAnalysisPhase_clean (ast : Ast) (st : RunState)
    (hn : st.noErrors = true)
    (h0 : stageClean ast.docStringAnalysis = true)
    (h1 : stageClean ast.postTypeCheck = true)
    (h2 : stageClean ast.postTypeFinalize = true)
    (hcg : ast.contracts.all contractClean = true)
    (hptc : stageClean ast.postTypeContractCheck = true) :
    retOf (docStringAnalysisPhase ast st) = some true := by
  rw [stageClean, Bool.and_eq_true, Option.isNone_iff_eq_none] at h0
  rw [docStringAnalysisPhase, if_pos hn]
  simp only [accumStage, h0.1]
  exact postTypePhase_clean ast _ (by simp [hn, h0.2]) h1 h2 hcg hptc

theorem analyzeTryBody_clean (ast : Ast) (st : RunState)
    (hn : st.noErrors = true) (hp : pipelineClean ast = true) :
    retOf (analyzeTryBody ast st) = some true := by
  simp only [pipelineClean, Bool.and_eq_true] at hp
  obtain ⟨c1, c2, c3, c4, c5, c6, c7, c8, c9, c10, c11, c12, c13, c14⟩ := hp
  rw [stageClean, Bool.and_eq_true, Option.isNone_iff_eq_none] at c1 c2 c3 c4 c5 c6 c7 c8 c9
  rw [analyzeTryBody]
  simp only [accumStage, abortStage, c1.1, c2.1, c3.1, c4.1, c5.1, c6.1, c7.1, c8.1, c9.1,
    c2.2, c3.2, c5.2, c6.2, if_true]
  exact docStringAnalysisPhase_clean ast _
    (by simp [hn, c1.2, c4.2, c7.2, c8.2, c9.2]) c10 c11 c12 c13 c14

/-- The pipeline returns `true` exactly when every stage completes without
raising and without reporting failure. -/
theorem analyzeSourceUnit_eq_true_iff (ast : Ast) (errors : List Diag) :
    (analyzeSourceUnit ast errors).1 = true ↔ pipelineClean ast = true := by
  constructor
  · intro h
    rw [analyzeSourceUnit] at h
    cases hb : analyzeTryBody ast
        { errors := errors, trace := [], noErrors := true, graphsBuilt := 0 } with
    | thrown e st => rw [hb] at h; cases e <;> simp at h
    | returned b st =>
      rw [hb] at h
      cases b with
      | false => simp at h
      | true => exact analyzeTryBody_ret_true ast _ st hb
  · intro h
    have hr := analyzeTryBody_clean ast
      { errors := errors, trace := [], noErrors := true, graphsBuilt := 0 } rfl h
    rw [analyzeSourceUnit]
    cases hb : analyzeTryBody ast
        { errors := errors, trace := [], noErrors := true, graphsBuilt := 0 } with
    | thrown e st => rw [hb] at hr; simp [retOf] at hr
    | returned b st =>
      rw [hb] at hr
      simp only [retOf, Option.some.injEq] at hr
      simp [hr]

/-- C4: `sol_analyze_parsed_ast_json` returns an
`AnalysisSuccessful`-stage document if and only if every pipeline stage
completed without reporting failure and no internal fault occurred
(JSON parsing, import and export included); whenever any stage failed, it
returns no result.  Moreover any document it ever returns carries the
`AnalysisSuccessful` stage marker. -/
theorem C4_success_iff_pipeline_clean (c : SolParserContext) (j : AnalyzeInput) (n : String) :
    ((∃ c2 doc, sol_analyze_parsed_ast_json (some c) (some j) (some n)
        = .ok (some c2, some doc) ∧ doc.stage = StageMarker.analysisSuccessful)
      ↔ (j.jsonParseThrows = none ∧ j.exportThrows = none ∧
         ∃ a, j.importOutcome = ImportOutcome.imported a ∧ pipelineClean a = true)) ∧
    (∀ c2 doc, sol_analyze_parsed_ast_json (some c) (some j) (some n) = .ok (c2, some doc) →
      doc.stage = StageMarker.analysisSuccessful) := by
  cases hjp : j.jsonParseThrows with
  | some e =>
    refine ⟨⟨?_, ?_⟩, ?_⟩
    · rintro ⟨c2, doc, heq, -⟩
      cases e <;> simp [sol_analyze_parsed_ast_json, hjp] at heq
    · rintro ⟨hnone, -⟩
      exact absurd hnone (by simp)
    · intro c2 doc heq
      cases e <;> simp [sol_analyze_parsed_ast_json, hjp] at heq
  | none =>
    cases hio : j.importOutcome with
    | throws e =>
      refine ⟨⟨?_, ?_⟩, ?_⟩
      · rintro ⟨c2, doc, heq, -⟩
        cases e <;> simp [sol_analyze_parsed_ast_json, hjp, hio] at heq
      · rintro ⟨-, -, a, ha, -⟩
        exact absurd ha (by simp)
      · intro c2 doc heq
        cases e <;> simp [sol_analyze_parsed_ast_json, hjp, hio] at heq
    | emptyMap =>
      refine ⟨⟨?_, ?_⟩, ?_⟩
      · rintro ⟨c2, doc, heq, -⟩
        simp [sol_analyze_parsed_ast_json, hjp, hio] at heq
      · rintro ⟨-, -, a, ha, -⟩
        exact absurd ha (by simp)
      · intro c2 doc heq
        simp [sol_analyze_parsed_ast_json, hjp, hio] at heq
    | missingEntry =>
      refine ⟨⟨?_, ?_⟩, ?_⟩
      · rintro ⟨c2, doc, heq, -⟩
        simp [sol_analyze_parsed_ast_json, hjp, hio] at heq
      · rintro ⟨-, -, a, ha, -⟩
        exact absurd ha (by simp)
      · intro c2 doc heq
        simp [sol_analyze_parsed_ast_json, hjp, hio] at heq
    | imported a =>
      cases hr : (analyzeSourceUnit a []).1 with
      | false =>
        refine ⟨⟨?_, ?_⟩, ?_⟩
        · rintro ⟨c2, doc, heq, -⟩
          simp [sol_analyze_parsed_ast_json, hjp, hio, hr] at heq
        · rintro ⟨-, -, a2, ha2, hclean⟩
          simp only [ImportOutcome.imported.injEq] at ha2
          subst ha2
          have := (analyzeSourceUnit_eq_true_iff a []).mpr hclean
          rw [hr] at this
          exact absurd this (by simp)
        · intro c2 doc heq
          simp [sol_analyze_parsed_ast_json, hjp, hio, hr] at heq
      | true =>
        cases hex : j.exportThrows with
        | some e =>
          refine ⟨⟨?_, ?_⟩, ?_⟩
          · rintro ⟨c2, doc, heq, -⟩
            cases e <;> simp [sol_analyze_parsed_ast_json, hjp, hio, hr, hex] at heq
          · rintro ⟨-, hnone, -⟩
            exact absurd hnone (by simp)
          · intro c2 doc heq
            cases e <;> simp [sol_analyze_parsed_ast_json, hjp, hio, hr, hex] at heq
        | none =>
          refine ⟨iff_of_true ?_ ?_, ?_⟩
          · refine ⟨{ errors := (analyzeSourceUnit a []).2.errors },
              ⟨StageMarker.analysisSuccessful, a, n⟩, ?_, rfl⟩
            simp [sol_analyze_parsed_ast_json, hjp, hio, hr, hex]
          · exact ⟨rfl, rfl, a, rfl, (analyzeSourceUnit_eq_true_iff a []).mp hr⟩
          · intro c2 doc heq
            simp only [sol_analyze_parsed_ast_json, hjp, hio, hr, hex] at heq
            simp only [if_true, Except.ok.injEq, Prod.mk.injEq, Option.some.injEq] at heq
            rw [← heq.2]

/-- C4 witness: on a clean source unit, a fresh context returns an
`AnalysisSuccessful` document. -/
theorem C4_witness :
    ∃ c2 doc, sol_analyze_parsed_ast_json (some { errors := [] })
        (some (inputOf astAllOk)) (some "C.sol")
      = .ok (some c2, some doc) ∧ doc.stage = StageMarker.analysisSuccessful :=
  (C4_success_iff_pipeline_clean { errors := [] } (inputOf astAllOk) "C.sol").1.mpr
    ⟨rfl, rfl, astAllOk, rfl, by decide⟩

end SolShadow
